import Mathlib

/-!
# Verification of the CRM_Backend calendar and authentication logic

Shallow embedding of the calendar module (`src/calendar_module/models.py`,
`serializers.py`, `views.py`), the password-reset flow
(`src/authentication/views.py`, `src/crmapp/models.py`) and the reminder
scheduler, together with theorems settling the specification claims.

Datetimes are modelled as integer microseconds since the Unix epoch
(`1970-01-01T00:00:00Z`), matching Python `datetime`'s microsecond
resolution. Civil dates are converted to day numbers with the standard
era-based civil-calendar algorithm, the same arithmetic Python's
`datetime.date` implements (proleptic Gregorian calendar).
-/

namespace CRMBackend

/-! ## Civil calendar arithmetic -/

/-- Gregorian leap-year rule, as used by Python `datetime`. -/
def isLeap (y : Nat) : Bool :=
  (y % 4 == 0 && y % 100 != 0) || y % 400 == 0

/-- Number of days in a civil month (`1 ≤ m ≤ 12`). -/
def daysInMonth (y m : Nat) : Nat :=
  if m = 2 then (if isLeap y then 29 else 28)
  else if m = 4 || m = 6 || m = 9 || m = 11 then 30
  else 31

/-- Days since 1970-01-01 of the civil date `y-m-d` (valid for `y ≥ 1`),
via the era-based conversion used by standard calendar libraries. -/
def daysFromCivil (y m d : Nat) : Int :=
  let yAdj := if m ≤ 2 then y - 1 else y
  let era := yAdj / 400
  let yoe := yAdj - era * 400
  let mp := if 2 < m then m - 3 else m + 9
  let doy := (153 * mp + 2) / 5 + (d - 1)
  let doe := yoe * 365 + yoe / 4 - yoe / 100 + doy
  ((era * 146097 + doe : Nat) : Int) - 719468

/-- Microseconds per day. -/
def usPerDay : Int := 86400000000

/-- Microseconds since the epoch of `y-m-d hh:mm:ss.us` (UTC). -/
def toMicros (y m d hh mm ss us : Nat) : Int :=
  daysFromCivil y m d * usPerDay
    + ((hh * 3600 + mm * 60 + ss : Nat) : Int) * 1000000 + (us : Int)

/-- Python `date.weekday()`: Monday = 0 … Sunday = 6, computed from the
epoch day number (1970-01-01 was a Thursday, weekday 3). -/
def pyWeekday (z : Int) : Int := (z + 3) % 7

example : daysFromCivil 1970 1 1 = 0 := by decide
example : pyWeekday (daysFromCivil 1970 1 1) = 3 := by decide
example : daysFromCivil 2000 3 1 = 11017 := by decide

/-! ## Calendar event model (`src/calendar_module/models.py`) -/

/-- The `CalendarEvent` model. Datetimes are microseconds since the epoch;
users are identified by their id. Free-text and cosmetic columns that no
claim touches (`color_code`, `task_id`, `meeting_id`, `is_all_day`,
`reminder_minutes`, timestamps) are elided. -/
structure CalendarEvent where
  id : Nat
  title : String
  description : String
  event_type : String
  start_datetime : Int
  end_datetime : Int
  duration_minutes : Option Int
  created_by : Nat
  attendees : List Nat
  location : String
  priority : String
  is_completed : Bool
deriving DecidableEq, Repr

/-- `CalendarEvent.clean` (models.py:122-124): raises `ValidationError`
when `end_datetime <= start_datetime`. -/
def modelClean (ev : CalendarEvent) : Except String Unit :=
  if ev.end_datetime ≤ ev.start_datetime then
    .error "End time must be after start time"
  else .ok ()

/-- The duration recomputed by `CalendarEvent.save` (models.py:126-130):
`int(duration.total_seconds() / 60)`. Python `int()` truncates toward
zero, which `Int.tdiv` implements; timestamps are microseconds, so one
minute is 60 000 000. -/
def savedDurationMinutes (s e : Int) : Int :=
  Int.tdiv (e - s) 60000000

/-- `CalendarEvent.save` (models.py:126-130): recomputes
`duration_minutes` from the (always present) start/end pair, then
persists. Django `save` does not invoke `clean`. -/
def modelSave (ev : CalendarEvent) : CalendarEvent :=
  { ev with duration_minutes := some (savedDurationMinutes ev.start_datetime ev.end_datetime) }

/-! ## Serializers (`src/calendar_module/serializers.py`) -/

/-- `CalendarEventSerializer.validate` (serializers.py:99-107): the check
fires only when both datetimes are supplied (Python `if start and end`). -/
def detailSerializerValidate (s e : Option Int) : Except String Unit :=
  match s, e with
  | some sv, some ev =>
      if ev ≤ sv then .error "End datetime must be after start datetime"
      else .ok ()
  | _, _ => .ok ()

/-- Client payload accepted by `CalendarEventCreateSerializer`
(serializers.py:124-154). `duration_minutes` and `created_by` are not in
its `fields` list, so the client cannot supply them. -/
structure EventInput where
  title : String
  description : String
  event_type : String
  start_datetime : Int
  end_datetime : Int
  attendees : List Nat
  location : String
  priority : String
deriving DecidableEq, Repr

/-- `CalendarEventCreateSerializer` (serializers.py:124-154) defines no
`validate` override, so serializer validation of a create request never
compares `end_datetime` with `start_datetime`: it always passes. -/
def createSerializerValidate (_inp : EventInput) : Except String Unit :=
  .ok ()

/-- The create path: `get_serializer_class` routes `create` to
`CalendarEventCreateSerializer` (views.py:92-93), `perform_create` saves
with `created_by=request.user` (views.py:100-101), and `save` fills
`duration_minutes` (models.py:126-130). Django/DRF never calls
`Model.clean` here. -/
def createEvent (user : Nat) (newId : Nat) (inp : EventInput) :
    Except String CalendarEvent := do
  createSerializerValidate inp
  .ok (modelSave
    { id := newId
      title := inp.title
      description := inp.description
      event_type := inp.event_type
      start_datetime := inp.start_datetime
      end_datetime := inp.end_datetime
      duration_minutes := none
      created_by := user
      attendees := inp.attendees
      location := inp.location
      priority := inp.priority
      is_completed := false })

/-- The update path: `update`/`partial_update` use
`CalendarEventSerializer` (views.py:89-94), whose `validate` runs on the
supplied fields only; `created_by` and `duration_minutes` are
`read_only_fields` (serializers.py:87-93), then `save` recomputes the
duration. -/
def updateEvent (ev : CalendarEvent) (newStart newEnd : Option Int) :
    Except String CalendarEvent :=
  match detailSerializerValidate newStart newEnd with
  | .error e => .error e
  | .ok _ => .ok (modelSave
      { ev with
        start_datetime := newStart.getD ev.start_datetime
        end_datetime := newEnd.getD ev.end_datetime })

/-! ## Visibility filter (`src/calendar_module/views.py:44-48`) -/

/-- The SQL rows produced by
`CalendarEvent.objects.filter(Q(created_by=user) | Q(attendees=user))`
before `distinct()`: the `Q(attendees=user)` disjunct joins through the
many-to-many table, so an event contributes one row per matching join
reason (creator match, and each attendee entry equal to `user`). -/
def visibilityJoinRows (events : List CalendarEvent) (user : Nat) :
    List CalendarEvent :=
  events.flatMap fun ev =>
    (if ev.created_by = user then [ev] else [])
      ++ (ev.attendees.filter (· = user)).map (fun _ => ev)

/-- `get_queryset`'s base queryset (views.py:44-48): the join rows with
`.distinct()` applied, which collapses duplicate rows. -/
def visibleEvents (events : List CalendarEvent) (user : Nat) :
    List CalendarEvent :=
  (visibilityJoinRows events user).dedup

/-- Any chain of further `queryset.filter(...)` calls on the base
queryset — the `event_type` and `is_completed` filters, the old-style
day/week/month filters (views.py:50-79), and the `start_datetime` window
bounds applied by `week_view` and `month_view` (views.py:132-135,
169-172) — is a row filter with some predicate `p`. -/
def filteredVisibleEvents (events : List CalendarEvent) (user : Nat)
    (p : CalendarEvent → Bool) : List CalendarEvent :=
  (visibleEvents events user).filter p

/-! ## Time-window resolution (`src/calendar_module/views.py:107-175`) -/

/-- `week_view`'s window (views.py:122-130, with the default UTC
timezone): `start_of_week = date - timedelta(days=date.weekday())`,
`end_of_week = start_of_week + timedelta(days=6)`, then
`datetime.min.time()` (00:00:00.000000) and `datetime.max.time()`
(23:59:59.999999) on those days. The reference date is given as its
epoch day number; the result is the pair of UTC microsecond bounds. -/
def weekWindow (refDay : Int) : Int × Int :=
  let startOfWeek := refDay - pyWeekday refDay
  let endOfWeek := startOfWeek + 6
  (startOfWeek * usPerDay, endOfWeek * usPerDay + (usPerDay - 1))

/-- `month_view`'s window (views.py:155-167, with the default UTC
timezone): `first_day = datetime(year, month, 1)` and `last_day` is the
first instant of the next month minus one second, the December→January
rollover handled by the explicit `month == 12` branch. -/
def monthWindow (year month : Nat) : Int × Int :=
  let firstDay := daysFromCivil year month 1 * usPerDay
  let lastDay :=
    if month = 12 then daysFromCivil (year + 1) 1 1 * usPerDay - 1000000
    else daysFromCivil year (month + 1) 1 * usPerDay - 1000000
  (firstDay, lastDay)

/-- The `start_datetime__gte` / `start_datetime__lte` filter both views
apply (views.py:132-135 and 169-172): both bounds are inclusive. -/
def inWindow (w : Int × Int) (t : Int) : Bool :=
  w.1 ≤ t && t ≤ w.2

/-! ## Timezone resolution (`src/calendar_module/views.py:125-130,162-167`) -/

/-- Modelled from the `pytz` collaborator: an abridged stand-in for the
`pytz` timezone database (`pytz.all_timezones`). -/
def knownTimezones : List String :=
  ["UTC", "GMT", "US/Eastern", "US/Central", "US/Mountain", "US/Pacific",
   "Europe/London", "Europe/Paris", "Europe/Berlin", "Asia/Kolkata",
   "Asia/Tokyo", "Asia/Shanghai", "Australia/Sydney", "America/New_York"]

/-- Modelled from the `pytz` collaborator: `pytz.timezone(name)` returns
the zone when the name is in the database and raises
`UnknownTimeZoneError` otherwise. -/
def pytzTimezone (name : String) : Except String String :=
  if knownTimezones.contains name then .ok name
  else .error "UnknownTimeZoneError"

/-- The attribute chain
`getattr(getattr(request.user, 'profile', None), 'timezone', 'UTC')`
(views.py:125-127 and 162-164): `none` models a user whose profile chain
does not yield a timezone attribute, in which case the string defaults
to `'UTC'`. -/
def profileTimezoneName (profileTz : Option String) : String :=
  profileTz.getD "UTC"

/-- The timezone actually used by `week_view` and `month_view`: the
profile string is passed to `pytz.timezone` with no exception handler,
so an unknown name propagates out of the request handler. -/
def resolveViewTimezone (profileTz : Option String) : Except String String :=
  pytzTimezone (profileTimezoneName profileTz)

/-! ## The `month_view` endpoint (`src/calendar_module/views.py:140-175`) -/

/-- Outcome of a `month_view` request: a 400 `'Invalid year or month'`
response, an unhandled Python exception (surfaced as a 5xx server
error), or a 200 response computed over the resolved window. -/
inductive MonthViewResult where
  | badRequest : MonthViewResult
  | serverError : String → MonthViewResult
  | ok : Int × Int → MonthViewResult
deriving DecidableEq, Repr

/-- Accumulate decimal digits; any non-digit character fails. -/
def parseNatDigitsAux : List Char → Nat → Option Nat
  | [], acc => some acc
  | c :: cs, acc =>
    if 48 ≤ c.toNat ∧ c.toNat ≤ 57 then
      parseNatDigitsAux cs (acc * 10 + (c.toNat - 48))
    else none

/-- A nonempty run of decimal digits. -/
def parseNatDigits : List Char → Option Nat
  | [] => none
  | cs => parseNatDigitsAux cs 0

/-- Modelled from the Python standard library collaborator: `int(s)` on
a string — an optional minus sign followed by decimal digits; anything
else raises `ValueError`, modelled as `none`. (Python also tolerates
surrounding whitespace, a plus sign and underscore separators; those
forms play no role here.) -/
def pyInt (s : String) : Option Int :=
  match s.data with
  | '-' :: rest => (parseNatDigits rest).map (fun n => -(n : Int))
  | cs => (parseNatDigits cs).map (fun n => (n : Int))

/-- Modelled from the Python standard library collaborator:
`datetime(year, month, day)` raises `ValueError` unless
`1 ≤ year ≤ 9999`, `1 ≤ month ≤ 12` and the day is valid for that
month; otherwise it denotes midnight of that civil date. -/
def pyDatetime (y m d : Int) : Except String Int :=
  if 1 ≤ y ∧ y ≤ 9999 ∧ 1 ≤ m ∧ m ≤ 12 ∧ 1 ≤ d ∧ d ≤ (daysInMonth y.toNat m.toNat : Int) then
    .ok (daysFromCivil y.toNat m.toNat d.toNat * usPerDay)
  else .error "ValueError"

/-- `month_view` (views.py:140-175), UTC default timezone. The
`try/except ValueError` guard covers only the two `int(...)` calls on
the query parameters (`pyInt` models `int()` on a string, returning
`none` where Python raises `ValueError`); the
`datetime(year, month, 1)` constructions sit outside the guard, so a
`ValueError` raised there escapes the handler. Missing parameters
default to the current year and month. -/
def monthView (yearParam monthParam : Option String) (nowYear nowMonth : Int) :
    MonthViewResult :=
  let yearParsed := match yearParam with
    | none => some nowYear
    | some s => pyInt s
  let monthParsed := match monthParam with
    | none => some nowMonth
    | some s => pyInt s
  match yearParsed, monthParsed with
  | some year, some month =>
    match pyDatetime year month 1 with
    | .error e => .serverError e
    | .ok firstDay =>
      let lastDay :=
        if month = 12 then (pyDatetime (year + 1) 1 1).map (· - 1000000)
        else (pyDatetime year (month + 1) 1).map (· - 1000000)
      match lastDay with
      | .error e => .serverError e
      | .ok lastDayVal => .ok (firstDay, lastDayVal)
  | _, _ => .badRequest

/-! ## Attendee management (`src/calendar_module/views.py:184-212`) -/

/-- Outcome of an attendee action: the updated event, or the 404
`'User not found'` response raised when `User.objects.get(id=user_id)`
finds no row. -/
inductive AttendeeResult where
  | ok : CalendarEvent → AttendeeResult
  | userNotFound : AttendeeResult
deriving DecidableEq, Repr

/-- Django's many-to-many `add`: inserts a join row unless one already
exists for this pair (the through table is unique on (event, user)). -/
def m2mAdd (l : List Nat) (uid : Nat) : List Nat :=
  if uid ∈ l then l else l ++ [uid]

/-- Django's many-to-many `remove`: deletes the join row if present and
does nothing otherwise. -/
def m2mRemove (l : List Nat) (uid : Nat) : List Nat :=
  l.filter (· ≠ uid)

/-- `add_attendee` (views.py:184-197): looks the user up by id (`users`
is the set of existing user ids), then `event.attendees.add(user)`;
`User.DoesNotExist` yields the 404 response and no mutation. -/
def addAttendee (users : List Nat) (ev : CalendarEvent) (uid : Nat) :
    AttendeeResult :=
  if uid ∈ users then .ok { ev with attendees := m2mAdd ev.attendees uid }
  else .userNotFound

/-- `remove_attendee` (views.py:199-212): symmetric to `add_attendee`
with `event.attendees.remove(user)`. -/
def removeAttendee (users : List Nat) (ev : CalendarEvent) (uid : Nat) :
    AttendeeResult :=
  if uid ∈ users then .ok { ev with attendees := m2mRemove ev.attendees uid }
  else .userNotFound

/-! ## Event reminders (`src/calendar_module/models.py:193-212`,
`views.py:233-252`) -/

/-- The `EventReminder` model: per (event, user, reminder-instant) row
with the sent flag and timestamp (models.py:193-212). -/
structure EventReminder where
  id : Nat
  eventId : Nat
  userId : Nat
  reminder_datetime : Int
  is_sent : Bool
  sent_at : Option Int
deriving DecidableEq, Repr

/-- `EventReminderViewSet.upcoming` (views.py:240-252): the user's
reminders with `reminder_datetime` in `[now, now + 24h]` and
`is_sent=False`. -/
def upcomingReminders (reminders : List EventReminder) (user : Nat)
    (now : Int) : List EventReminder :=
  reminders.filter fun r =>
    r.userId = user && now ≤ r.reminder_datetime
      && r.reminder_datetime ≤ now + 24 * 3600 * 1000000
      && r.is_sent = false

/-- Modelled from the spec: the repository exposes the `is_sent` /
`sent_at` columns (models.py:207-208) and marks them read-only at the
API (serializers.py:229-233), but the `mark_sent` scheduler operation
itself appears nowhere under `src/`. Per §4.4 of the spec,
`mark_sent(reminder)` sets `is_sent = true` and `sent_at = now`, and a
second call is a no-op. -/
def markSent (r : EventReminder) (now : Int) : EventReminder :=
  if r.is_sent then r
  else { r with is_sent := true, sent_at := some now }

/-! ## Password reset (`src/authentication/views.py:121-155`,
`src/crmapp/models.py:5-12`) -/

/-- The `PasswordResetToken` model (crmapp/models.py:5-12): opaque
unique token string, owning user, expiry instant. -/
structure PasswordResetToken where
  id : Nat
  token : String
  userId : Nat
  expires_at : Int
deriving DecidableEq, Repr

/-- `PasswordResetToken.is_expired` (crmapp/models.py:11-12):
`timezone.now() > self.expires_at`. -/
def PasswordResetToken.is_expired (t : PasswordResetToken) (now : Int) : Bool :=
  now > t.expires_at

/-- Persistent state touched by the reset endpoint: user passwords
(keyed by user id) and the reset-token table. -/
structure AuthState where
  passwords : List (Nat × String)
  tokens : List PasswordResetToken
deriving DecidableEq, Repr

/-- Responses of `ResetPasswordAPIView.post`, with their HTTP statuses:
`invalidToken` and `tokenExpired` are 400, `success` is 200. -/
inductive ResetResult where
  | invalidToken : ResetResult
  | tokenExpired : ResetResult
  | success : ResetResult
deriving DecidableEq, Repr

/-- HTTP status code of each reset response (views.py:134-154). -/
def ResetResult.httpStatus : ResetResult → Nat
  | .invalidToken => 400
  | .tokenExpired => 400
  | .success => 200

/-- Delete one token row (Django `reset_token.delete()`, by primary
key). -/
def deleteToken (ts : List PasswordResetToken) (tid : Nat) :
    List PasswordResetToken :=
  ts.filter (·.id ≠ tid)

/-- `ResetPasswordAPIView.post` (authentication/views.py:121-155):
look the token up by its (unique) string; unknown → 400; expired →
delete the row and 400; otherwise set the user's password, delete the
row, 200. -/
def resetPassword (st : AuthState) (tok newPassword : String) (now : Int) :
    AuthState × ResetResult :=
  match st.tokens.find? (fun r => r.token == tok) with
  | none => (st, .invalidToken)
  | some r =>
    if r.is_expired now then
      ({ st with tokens := deleteToken st.tokens r.id }, .tokenExpired)
    else
      ({ passwords := st.passwords.map
           (fun u => if u.1 = r.userId then (u.1, newPassword) else u),
         tokens := deleteToken st.tokens r.id }, .success)

/-! ## Concrete fixtures used by counterexamples and witnesses -/

/-- A create payload whose end (09:00) precedes its start (10:00) by
one hour. -/
def invalidRangeInput : EventInput :=
  { title := "Standup", description := "", event_type := "meeting",
    start_datetime := toMicros 2024 1 1 10 0 0 0,
    end_datetime := toMicros 2024 1 1 9 0 0 0,
    attendees := [], location := "", priority := "medium" }

/-- A create payload whose end precedes its start by 90 seconds. -/
def negativeDurationInput : EventInput :=
  { title := "Quick sync", description := "", event_type := "event",
    start_datetime := toMicros 2024 1 1 10 0 0 0,
    end_datetime := toMicros 2024 1 1 10 0 0 0 - 90000000,
    attendees := [], location := "", priority := "medium" }

/-- An event created and also attended by user 5. -/
def sampleBoardMeeting : CalendarEvent :=
  { id := 1, title := "Board meeting", description := "",
    event_type := "meeting", start_datetime := 0, end_datetime := 3600000000,
    duration_minutes := some 60, created_by := 5, attendees := [5, 9],
    location := "", priority := "high", is_completed := false }

/-- An event user 5 neither created nor attends. -/
def sampleOtherEvent : CalendarEvent :=
  { sampleBoardMeeting with id := 2, created_by := 8, attendees := [9] }

/-- An event created by user 3 with attendee list [3]. -/
def sampleDemoEvent : CalendarEvent :=
  { id := 1, title := "Demo", description := "", event_type := "event",
    start_datetime := 0, end_datetime := 3600000000,
    duration_minutes := some 60, created_by := 3, attendees := [3],
    location := "", priority := "medium", is_completed := false }

/-- A reset token for user 4 that expired at instant 100. -/
def sampleResetToken : PasswordResetToken :=
  { id := 1, token := "abc123", userId := 4, expires_at := 100 }

/-- A two-user store holding only `sampleResetToken`. -/
def sampleAuthState : AuthState :=
  { passwords := [(4, "oldhash"), (5, "otherhash")],
    tokens := [sampleResetToken] }

/-- An unsent reminder. -/
def sampleReminder : EventReminder :=
  { id := 1, eventId := 2, userId := 3, reminder_datetime := 500,
    is_sent := false, sent_at := none }

/-! ## Claim theorems -/

/-- C1 (code bug): the spec requires every create request with
`end_datetime ≤ start_datetime` to fail with `InvalidRangeError` and
persist nothing, "regardless of which serializer handles it"; the
model's own `clean` asserts that invariant, but the create action is
routed to `CalendarEventCreateSerializer`, which never runs the range
check, so a create with `end ≤ start` (here: 2024-01-01 10:00 → 09:00)
is persisted — with a negative derived duration — in violation of the
model's own `clean` and of the check the detail serializer would have
applied. -/
theorem C1_create_persists_invalid_range :
    (createEvent 7 1 invalidRangeInput).isOk = true
    ∧ (createEvent 7 1 invalidRangeInput).toOption.map
        (fun ev => decide (ev.end_datetime ≤ ev.start_datetime)) = some true
    ∧ (createEvent 7 1 invalidRangeInput).toOption.map
        CalendarEvent.duration_minutes = some (some (-60))
    ∧ (createEvent 7 1 invalidRangeInput).toOption.map modelClean
        = some (.error "End time must be after start time")
    ∧ detailSerializerValidate (some invalidRangeInput.start_datetime)
        (some invalidRangeInput.end_datetime)
        = .error "End datetime must be after start datetime" := by
  exact ⟨rfl, by decide, by decide, by rfl, by rfl⟩

/-- C2 (counterexample): for year 2024, month 2 the code's window does
not end at `2024-02-29T23:59:59.999Z` — subtracting one second from the
first instant of March leaves `23:59:59.000`, nine hundred ninety-nine
milliseconds earlier than the claimed endpoint. -/
theorem C2_month_window_counterexample :
    monthWindow 2024 2
        ≠ (toMicros 2024 2 1 0 0 0 0, toMicros 2024 2 29 23 59 59 999000)
      ∧ (monthWindow 2024 2).2 = toMicros 2024 2 29 23 59 59 0 := by
  constructor
  · decide
  · decide

/-- C2 (amended): for every year and month the month window is
[first day of the month 00:00, first instant of the next month minus
one second], with the December→January rollover explicit; for 2024-02
the window is [2024-02-01T00:00:00Z, 2024-02-29T23:59:59Z] (leap year,
whole-second endpoint, not .999), and both boundaries are inclusive. -/
theorem C2_month_window :
    (∀ y m : Nat, 1 ≤ m → m ≤ 11 →
       monthWindow y m
         = (daysFromCivil y m 1 * usPerDay,
            daysFromCivil y (m + 1) 1 * usPerDay - 1000000))
    ∧ (∀ y : Nat,
       monthWindow y 12
         = (daysFromCivil y 12 1 * usPerDay,
            daysFromCivil (y + 1) 1 1 * usPerDay - 1000000))
    ∧ monthWindow 2024 2 = (toMicros 2024 2 1 0 0 0 0, toMicros 2024 2 29 23 59 59 0)
    ∧ daysInMonth 2024 2 = 29
    ∧ inWindow (monthWindow 2024 2) (monthWindow 2024 2).1 = true
    ∧ inWindow (monthWindow 2024 2) (monthWindow 2024 2).2 = true := by
  refine ⟨?_, ?_, by decide, by decide, by decide, by decide⟩
  · intro y m h1 h11
    have hm : m ≠ 12 := by omega
    simp [monthWindow, hm]
  · intro y
    simp [monthWindow]

/-- C2 witness: the general month-window shape at the concrete input
year 2024, month 2. -/
theorem C2_month_window_witness :
    monthWindow 2024 2
      = (daysFromCivil 2024 2 1 * usPerDay,
         daysFromCivil 2024 3 1 * usPerDay - 1000000) :=
  C2_month_window.1 2024 2 (by decide) (by decide)

/-- C4: for every reference day the week window starts on the Monday of
the week containing it (weekday 0) and ends six days later on the
following Sunday (weekday 6) at the last instant of that day, with the
reference day inside the window and both bounds inclusive; for
reference 2025-01-15 (a Wednesday, weekday 2) the window is Monday
2025-01-13 00:00:00.000000 through Sunday 2025-01-19 23:59:59.999999. -/
theorem C4_week_window :
    (∀ refDay : Int, ∃ s : Int,
       weekWindow refDay = (s * usPerDay, (s + 6) * usPerDay + (usPerDay - 1))
       ∧ pyWeekday s = 0
       ∧ pyWeekday (s + 6) = 6
       ∧ s ≤ refDay ∧ refDay ≤ s + 6
       ∧ inWindow (weekWindow refDay) (s * usPerDay) = true
       ∧ inWindow (weekWindow refDay) ((s + 6) * usPerDay + (usPerDay - 1)) = true)
    ∧ pyWeekday (daysFromCivil 2025 1 15) = 2
    ∧ weekWindow (daysFromCivil 2025 1 15)
        = (daysFromCivil 2025 1 13 * usPerDay,
           daysFromCivil 2025 1 19 * usPerDay + (usPerDay - 1)) := by
  refine ⟨?_, by decide, by decide⟩
  intro refDay
  refine ⟨refDay - pyWeekday refDay, rfl, ?_, ?_, ?_, ?_, ?_, ?_⟩
  · simp only [pyWeekday]; omega
  · simp only [pyWeekday]; omega
  · simp only [pyWeekday]; omega
  · simp only [pyWeekday]; omega
  · simp only [inWindow, weekWindow, pyWeekday, usPerDay, Bool.and_eq_true,
      decide_eq_true_eq]
    constructor <;> omega
  · simp only [inWindow, weekWindow, pyWeekday, usPerDay, Bool.and_eq_true,
      decide_eq_true_eq]
    constructor <;> omega

/-- C3 (counterexample): a create whose end precedes its start by 90
seconds succeeds (the create serializer runs no range check), and the
stored duration is `int(-90/60) = -1`, truncated toward zero, whereas
`floor(-90/60) = -2`: on this succeeding write the stored value differs
from the claimed floor. -/
theorem C3_duration_counterexample :
    (createEvent 7 2 negativeDurationInput).isOk = true
    ∧ (createEvent 7 2 negativeDurationInput).toOption.map
        CalendarEvent.duration_minutes = some (some (-1))
    ∧ Int.fdiv (negativeDurationInput.end_datetime
        - negativeDurationInput.start_datetime) 60000000 = -2
    ∧ (createEvent 7 2 negativeDurationInput).toOption.map
          CalendarEvent.duration_minutes
        ≠ some (some (Int.fdiv (negativeDurationInput.end_datetime
            - negativeDurationInput.start_datetime) 60000000)) := by
  exact ⟨rfl, by decide, by decide, by decide⟩

/-- C3 (amended): the stored duration is
`int((end - start).total_seconds() / 60)` truncated toward zero; for
every write with `start ≤ end` — in particular every range-validated
write — this equals `floor((end - start).total_seconds() / 60)`. The
duration is recomputed on every write from the stored datetimes alone
(the client payload carries no duration field), on both the create and
the update path. -/
theorem C3_duration_minutes :
    (∀ s e : Int, s ≤ e →
       savedDurationMinutes s e = Int.fdiv (e - s) 60000000)
    ∧ (∀ (u i : Nat) (inp : EventInput), ∃ ev : CalendarEvent,
         createEvent u i inp = .ok ev
         ∧ ev.duration_minutes
             = some (savedDurationMinutes inp.start_datetime inp.end_datetime))
    ∧ (∀ (ev : CalendarEvent) (ns ne : Option Int) (ev2 : CalendarEvent),
         updateEvent ev ns ne = .ok ev2 →
         ev2.duration_minutes
           = some (savedDurationMinutes ev2.start_datetime ev2.end_datetime)) := by
  refine ⟨?_, ?_, ?_⟩
  · intro s e h
    have h0 : (0 : Int) ≤ e - s := by omega
    simpa [savedDurationMinutes] using
      (Int.fdiv_eq_tdiv h0 (by norm_num)).symm
  · intro u i inp
    exact ⟨_, rfl, rfl⟩
  · intro ev ns ne ev2 h
    unfold updateEvent at h
    cases hv : detailSerializerValidate ns ne with
    | error e => rw [hv] at h; exact absurd h (by simp)
    | ok u =>
      rw [hv] at h
      simp only [Except.ok.injEq] at h
      subst h
      rfl

/-- C3 witness: truncation equals floor at the concrete nonnegative
90-minute duration. -/
theorem C3_duration_minutes_witness :
    savedDurationMinutes 0 5400000000 = Int.fdiv (5400000000 - 0) 60000000 :=
  C3_duration_minutes.1 0 5400000000 (by decide)

/-- C5: every event the base visibility queryset returns — and hence
every event of any further-filtered listing such as the week and month
views — has the requesting user as creator or among its attendees, and
the `distinct()`-modelled deduplication makes each event appear at most
once. -/
theorem C5_visibility_filter :
    ∀ (events : List CalendarEvent) (user : Nat) (p : CalendarEvent → Bool),
      (∀ ev ∈ filteredVisibleEvents events user p,
         ev.created_by = user ∨ user ∈ ev.attendees)
      ∧ (filteredVisibleEvents events user p).Nodup
      ∧ (∀ ev : CalendarEvent, (filteredVisibleEvents events user p).count ev ≤ 1) := by
  intro events user p
  have hsub : ∀ ev ∈ filteredVisibleEvents events user p,
      ev.created_by = user ∨ user ∈ ev.attendees := by
    intro ev hev
    have hmem : ev ∈ visibleEvents events user :=
      List.mem_of_mem_filter hev
    have hjoin : ev ∈ visibilityJoinRows events user := by
      simpa [visibleEvents, List.mem_dedup] using hmem
    simp only [visibilityJoinRows, List.mem_flatMap] at hjoin
    obtain ⟨e0, _, hrow⟩ := hjoin
    rcases List.mem_append.mp hrow with hcreator | hattendee
    · by_cases hc : e0.created_by = user
      · rw [if_pos hc, List.mem_singleton] at hcreator
        subst hcreator; exact Or.inl hc
      · rw [if_neg hc] at hcreator
        exact absurd hcreator (List.not_mem_nil _)
    · obtain ⟨a, ha, rfl⟩ := List.mem_map.mp hattendee
      have h2 := List.mem_filter.mp ha
      have hau : a = user := by simpa using h2.2
      exact Or.inr (hau ▸ h2.1)
  have hnodup : (filteredVisibleEvents events user p).Nodup :=
    (List.nodup_dedup _).filter p
  refine ⟨hsub, hnodup, ?_⟩
  intro ev
  exact List.nodup_iff_count_le_one.mp hnodup ev

/-- C5 witness: a concrete store where user 5 created event 1 and also
attends it (two join reasons, one returned row), while event 2 belongs
to someone else and is not returned; the returned event satisfies the
creator-or-attendee predicate. -/
theorem C5_visibility_filter_witness :
    (sampleBoardMeeting
         ∈ filteredVisibleEvents [sampleBoardMeeting, sampleOtherEvent] 5
             (fun _ => true)
       ∧ (sampleBoardMeeting.created_by = 5 ∨ 5 ∈ sampleBoardMeeting.attendees))
      ∧ filteredVisibleEvents [sampleBoardMeeting, sampleOtherEvent] 5
          (fun _ => true) = [sampleBoardMeeting] := by
  refine ⟨⟨by decide, ?_⟩, by decide⟩
  exact (C5_visibility_filter [sampleBoardMeeting, sampleOtherEvent] 5
    (fun _ => true)).1 sampleBoardMeeting (by decide)

/-- The added user is always a member afterwards. -/
theorem m2mAdd_mem_self (l : List Nat) (uid : Nat) : uid ∈ m2mAdd l uid := by
  by_cases h : uid ∈ l <;> simp [m2mAdd, h]

/-- Django many-to-many `add` is idempotent. -/
theorem m2mAdd_idem (l : List Nat) (uid : Nat) :
    m2mAdd (m2mAdd l uid) uid = m2mAdd l uid := by
  by_cases h : uid ∈ l <;> simp [m2mAdd, h]

/-- C6: attendee management is idempotent — with an existing target
user, adding twice leaves exactly one membership row (the
many-to-many through table being unique per pair, i.e. the attendee
list duplicate-free), the second add is a no-op, and removing an absent
attendee returns the event unchanged — while a nonexistent target user
id makes both operations answer the 404 user-not-found response without
touching the attendee set. -/
theorem C6_attendee_idempotence :
    ∀ (users : List Nat) (ev : CalendarEvent) (uid : Nat),
      (uid ∈ users →
         addAttendee users ev uid
             = .ok { ev with attendees := m2mAdd ev.attendees uid }
         ∧ addAttendee users { ev with attendees := m2mAdd ev.attendees uid } uid
             = .ok { ev with attendees := m2mAdd ev.attendees uid }
         ∧ (ev.attendees.Nodup → (m2mAdd ev.attendees uid).count uid = 1))
      ∧ (uid ∈ users → uid ∉ ev.attendees →
         removeAttendee users ev uid = .ok ev)
      ∧ (uid ∉ users →
         addAttendee users ev uid = .userNotFound
         ∧ removeAttendee users ev uid = .userNotFound) := by
  intro users ev uid
  refine ⟨?_, ?_, ?_⟩
  · intro hu
    refine ⟨by simp [addAttendee, hu], ?_, ?_⟩
    · simp [addAttendee, hu, m2mAdd_idem]
    · intro hnodup
      by_cases h : uid ∈ ev.attendees
      · have hle := List.nodup_iff_count_le_one.mp hnodup uid
        have hpos := List.count_pos_iff.mpr h
        simp only [m2mAdd, if_pos h]
        omega
      · simp [m2mAdd, h, List.count_eq_zero_of_not_mem h]
  · intro hu habs
    have hfix : m2mRemove ev.attendees uid = ev.attendees := by
      unfold m2mRemove
      apply List.filter_eq_self.mpr
      intro a ha
      have : a ≠ uid := fun hq => habs (hq ▸ ha)
      simp [this]
    simp only [removeAttendee, if_pos hu, hfix]
  · intro hu
    constructor <;> simp [addAttendee, removeAttendee, hu]

/-- C6 witness: with users {3, 4} and an event whose attendee list is
[3], adding user 4 twice yields exactly one row for 4, removing absent
user 4 is a no-op, and both operations on nonexistent user 9 answer
user-not-found. -/
theorem C6_attendee_idempotence_witness :
    ((4 : Nat) ∈ [3, 4] ∧ sampleDemoEvent.attendees.Nodup
        ∧ (4 : Nat) ∉ sampleDemoEvent.attendees ∧ (9 : Nat) ∉ [3, 4])
      ∧ (m2mAdd sampleDemoEvent.attendees 4).count 4 = 1
      ∧ removeAttendee [3, 4] sampleDemoEvent 4 = .ok sampleDemoEvent
      ∧ addAttendee [3, 4] sampleDemoEvent 9 = .userNotFound := by
  refine ⟨by decide, ?_, ?_, ?_⟩
  · exact (C6_attendee_idempotence [3, 4] sampleDemoEvent 4).1 (by decide)
      |>.2.2 (by decide)
  · exact (C6_attendee_idempotence [3, 4] sampleDemoEvent 4).2.1 (by decide)
      (by decide)
  · exact ((C6_attendee_idempotence [3, 4] sampleDemoEvent 9).2.2 (by decide)).1

/-- The token row found by the reset handler never survives the
handler's delete. -/
theorem deleteToken_not_mem (ts : List PasswordResetToken)
    (r : PasswordResetToken) : r ∉ deleteToken ts r.id := by
  intro hmem
  have := (List.mem_filter.mp hmem).2
  simp at this

/-- C7: a reset attempt whose token row is past `expires_at` answers
the 400 expired-token response, deletes the token row, and leaves every
password unchanged; a reset with a live token succeeds (200), rewrites
exactly the owning user's password, and also deletes the token row
(single use). -/
theorem C7_reset_password :
    ∀ (st : AuthState) (tok newPw : String) (now : Int)
      (r : PasswordResetToken),
      st.tokens.find? (fun x => x.token == tok) = some r →
      ((r.expires_at < now →
          (resetPassword st tok newPw now).2 = .tokenExpired
          ∧ (resetPassword st tok newPw now).2.httpStatus = 400
          ∧ (resetPassword st tok newPw now).1.tokens = deleteToken st.tokens r.id
          ∧ r ∉ (resetPassword st tok newPw now).1.tokens
          ∧ (resetPassword st tok newPw now).1.passwords = st.passwords)
       ∧ (now ≤ r.expires_at →
          (resetPassword st tok newPw now).2 = .success
          ∧ (resetPassword st tok newPw now).2.httpStatus = 200
          ∧ (resetPassword st tok newPw now).1.tokens = deleteToken st.tokens r.id
          ∧ r ∉ (resetPassword st tok newPw now).1.tokens
          ∧ (resetPassword st tok newPw now).1.passwords
              = st.passwords.map
                  (fun u => if u.1 = r.userId then (u.1, newPw) else u))) := by
  intro st tok newPw now r hfind
  constructor
  · intro hexp
    have hb : r.is_expired now = true := by
      simp [PasswordResetToken.is_expired]; omega
    have hred : resetPassword st tok newPw now
        = ({ st with tokens := deleteToken st.tokens r.id }, .tokenExpired) := by
      simp [resetPassword, hfind, hb]
    rw [hred]
    exact ⟨rfl, rfl, rfl, deleteToken_not_mem st.tokens r, rfl⟩
  · intro hlive
    have hb : r.is_expired now = false := by
      simp [PasswordResetToken.is_expired]; omega
    have hred : resetPassword st tok newPw now
        = ({ passwords := st.passwords.map
               (fun u => if u.1 = r.userId then (u.1, newPw) else u),
             tokens := deleteToken st.tokens r.id }, .success) := by
      simp [resetPassword, hfind, hb]
    rw [hred]
    exact ⟨rfl, rfl, rfl, deleteToken_not_mem st.tokens r, rfl⟩

/-- C7 witness: a two-user store with one token that expired at instant
100; a reset attempt at instant 200 answers 400, deletes the row, and
leaves the passwords untouched. -/
theorem C7_reset_password_witness :
    (sampleAuthState.tokens.find? (fun x => x.token == "abc123")
          = some sampleResetToken
        ∧ sampleResetToken.expires_at < 200)
      ∧ (resetPassword sampleAuthState "abc123" "newpw" 200).2 = .tokenExpired
      ∧ (resetPassword sampleAuthState "abc123" "newpw" 200).1.passwords
          = sampleAuthState.passwords := by
  refine ⟨⟨by decide, by decide⟩, ?_, ?_⟩
  · exact ((C7_reset_password sampleAuthState "abc123" "newpw" 200
      sampleResetToken (by decide)).1 (by decide)).1
  · exact ((C7_reset_password sampleAuthState "abc123" "newpw" 200
      sampleResetToken (by decide)).1 (by decide)).2.2.2.2

/-- C8: `mark_sent` on an unsent reminder sets `is_sent` and stamps
`sent_at` with the call's instant, and a second call — at any later
instant — is a no-op, leaving `sent_at` at the first call's timestamp.
(`mark_sent` is modelled from §4.4 of the spec: the repository declares
the `is_sent`/`sent_at` columns and shields them from clients, but
ships no scheduler write operation under `src/`.) -/
theorem C8_mark_sent_idempotent :
    ∀ (r : EventReminder) (t1 t2 : Int),
      r.is_sent = false →
        (markSent r t1).is_sent = true
        ∧ (markSent r t1).sent_at = some t1
        ∧ markSent (markSent r t1) t2 = markSent r t1
        ∧ (markSent (markSent r t1) t2).sent_at = some t1 := by
  intro r t1 t2 h
  simp [markSent, h]

/-- C8 witness: a concrete unsent reminder marked at instant 1000 and
again at instant 2000 keeps `sent_at = 1000`. -/
theorem C8_mark_sent_idempotent_witness :
    (markSent sampleReminder 1000).sent_at = some 1000
      ∧ (markSent (markSent sampleReminder 1000) 2000).sent_at = some 1000 :=
  ⟨(C8_mark_sent_idempotent sampleReminder 1000 2000 rfl).2.1,
   (C8_mark_sent_idempotent sampleReminder 1000 2000 rfl).2.2.2⟩

/-- C9 (counterexample): with a stored timezone string that is not in
the timezone database, the view's timezone resolution raises
`UnknownTimeZoneError` — there is no handler around `pytz.timezone` —
instead of defaulting to UTC as claimed. -/
theorem C9_invalid_timezone_counterexample :
    resolveViewTimezone (some "Mars/Olympus") = .error "UnknownTimeZoneError"
      ∧ resolveViewTimezone (some "Mars/Olympus") ≠ .ok "UTC" := by
  constructor
  · rfl
  · intro h
    exact absurd h (by simp [resolveViewTimezone, profileTimezoneName,
      pytzTimezone, knownTimezones])

/-- C9 (amended): when the user's timezone is absent the week and month
views default to UTC; but when the stored timezone string is not a
known zone, `pytz.timezone` raises `UnknownTimeZoneError`, which the
views do not catch, so the request fails instead of defaulting to
UTC. A known stored zone is used as stored. -/
theorem C9_timezone_resolution :
    resolveViewTimezone none = .ok "UTC"
    ∧ (∀ s : String, knownTimezones.contains s = false →
         resolveViewTimezone (some s) = .error "UnknownTimeZoneError")
    ∧ (∀ s : String, knownTimezones.contains s = true →
         resolveViewTimezone (some s) = .ok s) := by
  refine ⟨rfl, ?_, ?_⟩
  · intro s h
    have hmem : s ∉ knownTimezones := by simpa using h
    simp [resolveViewTimezone, profileTimezoneName, pytzTimezone, hmem]
  · intro s h
    have hmem : s ∈ knownTimezones := by simpa using h
    simp [resolveViewTimezone, profileTimezoneName, pytzTimezone, hmem]

/-- C9 witness: the unknown-zone branch of the amended claim at the
concrete string "Not/AZone". -/
theorem C9_timezone_resolution_witness :
    resolveViewTimezone (some "Not/AZone") = .error "UnknownTimeZoneError" :=
  C9_timezone_resolution.2.1 "Not/AZone" (by rfl)

/-- C10: `month_view`'s `try/except ValueError` guards only the two
`int(...)` parses, so a non-integer month yields the 400
'Invalid year or month' response, but any integer month outside 1..12
— 0 and 13 included — reaches `datetime(year, month, 1)` outside the
guard, whose `ValueError` escapes the handler as a server error. -/
theorem C10_month_view_out_of_range :
    (∀ (yStr mStr : String) (y m nowYear nowMonth : Int),
       pyInt yStr = some y → pyInt mStr = some m →
       1 ≤ y → y ≤ 9999 → (m < 1 ∨ 12 < m) →
       monthView (some yStr) (some mStr) nowYear nowMonth
         = .serverError "ValueError")
    ∧ (∀ (yStr mStr : String) (y nowYear nowMonth : Int),
       pyInt yStr = some y → pyInt mStr = none →
       monthView (some yStr) (some mStr) nowYear nowMonth = .badRequest) := by
  constructor
  · intro yStr mStr y m nowYear nowMonth hy hm hy1 hy2 hrange
    have hcond : ¬ (1 ≤ y ∧ y ≤ 9999 ∧ 1 ≤ m ∧ m ≤ 12 ∧ 1 ≤ (1 : Int)
        ∧ (1 : Int) ≤ (daysInMonth y.toNat m.toNat : Int)) := by
      intro h
      omega
    simp only [monthView, hy, hm, pyDatetime, if_neg hcond]
  · intro yStr mStr y nowYear nowMonth hy hm
    simp only [monthView, hy, hm]

/-- C10 witness: `month=13` with a valid year crashes with the
unhandled `ValueError` (5xx), while the non-integer `month=abc` is the
one case the guard converts to the 400 response. -/
theorem C10_month_view_out_of_range_witness :
    monthView (some "2024") (some "13") 2026 1 = .serverError "ValueError"
      ∧ monthView (some "2024") (some "abc") 2026 1 = .badRequest := by
  constructor
  · exact C10_month_view_out_of_range.1 "2024" "13" 2024 13 2026 1
      (by decide) (by decide) (by decide) (by decide) (Or.inr (by decide))
  · exact C10_month_view_out_of_range.2 "2024" "abc" 2024 2026 1
      (by decide) (by decide)

end CRMBackend
